import Mathlib

/-!
# Verification of the SQL-Assist natural-language-to-SQL pipeline

A shallow embedding of the three application variants (`main.py`, `NewMain.py`,
`NewMain2.py`): Python strings are `List Char`, the Python string operations the
code uses (`lower`, `upper`, `strip`, `startswith`, `in`, `split`, slicing) are
translated one by one, and every stateful turn handler is a pure function from
the session state (chat log, database connection) to the next state plus a trace
of the connection operations (`execute` / `commit` / `rollback`) and of what is
rendered.  The external collaborators that are not part of the repository — the
sqlite3 driver, the hosted LLM and the LangChain SQL agent — enter as function
parameters: an arbitrary statement semantics `SqlSem`, an arbitrary generator
`gen`, and an arbitrary agent behaviour.
-/

set_option maxHeartbeats 1000000

/-- Python strings, embedded as lists of characters. -/
abbrev Str := List Char

/-- Coerce a Lean string literal to the embedding. -/
def str (s : String) : Str := s.data

/-- Python `s.lower()` (the source only ever lowercases ASCII SQL text;
`Char.toLower` is exactly the ASCII case mapping). -/
def pyLower (s : Str) : Str := s.map Char.toLower

/-- Python `s.upper()` restricted to ASCII, as used on the user input. -/
def pyUpper (s : Str) : Str := s.map Char.toUpper

/-- Python `s.startswith(p)`: `beginsWith p s` is true when `p` is a leading
segment of `s`. -/
def beginsWith : Str → Str → Bool
  | [], _ => true
  | _ :: _, [] => false
  | p :: ps, c :: cs => p == c && beginsWith ps cs

/-- The remainder of `s` strictly after the first occurrence of `pat`
(`none` when `pat` does not occur); the building block for the Python
`in` and `split(sep)` operations on a non-empty separator. -/
def afterFirst (pat : Str) : Str → Option Str
  | [] => none
  | c :: cs =>
    if beginsWith pat (c :: cs) then some (List.drop pat.length (c :: cs))
    else afterFirst pat cs

/-- The part of `s` strictly before the first occurrence of `pat`
(all of `s` when `pat` does not occur). -/
def upToFirst (pat : Str) : Str → Str
  | [] => []
  | c :: cs =>
    if beginsWith pat (c :: cs) then [] else c :: upToFirst pat cs

/-- Python `pat in s` for a non-empty `pat`. -/
def hasSub (s pat : Str) : Bool := (afterFirst pat s).isSome

/-- Python `s.split()[0]` with the `IndexError` on an all-whitespace string
embedded as `none`: skip leading whitespace, then take the maximal run of
non-whitespace characters. -/
def firstWsToken : Str → Option Str
  | [] => none
  | c :: cs =>
    if c.isWhitespace then firstWsToken cs
    else some (c :: cs.takeWhile (fun d => !d.isWhitespace))

/-- Leading-whitespace trim. -/
def ltrim (s : Str) : Str := s.dropWhile Char.isWhitespace

/-- Trailing-whitespace trim. -/
def rtrim (s : Str) : Str := (s.reverse.dropWhile Char.isWhitespace).reverse

/-- Python `s.strip()`. -/
def pyStrip (s : Str) : Str := rtrim (ltrim s)

/-! ## Data model: the `employees` table and the connection

The database schema is the single table created by all three variants
(`id INTEGER PRIMARY KEY, name TEXT, department TEXT, salary REAL, hire_date TEXT`).
The sample salaries are whole numbers and no claim computes with them, so the
`REAL` column is embedded as `Nat`. -/

/-- One row of the `employees` table. -/
structure Employee where
  id : Nat
  name : Str
  department : Str
  salary : Nat
  hire_date : Str
deriving DecidableEq

/-- The rows of the `employees` table; a database file with no table yet is
the empty list (the `CREATE TABLE IF NOT EXISTS` materialises it empty). -/
abbrev DbRows := List Employee

/-- The four fixed sample rows (`sample_data` in all three files). -/
def sample_data : DbRows :=
  [⟨1, str "John Doe", str "Engineering", 75000, str "2023-01-15"⟩,
   ⟨2, str "Jane Smith", str "Marketing", 65000, str "2022-06-20"⟩,
   ⟨3, str "Bob Johnson", str "Engineering", 80000, str "2021-09-01"⟩,
   ⟨4, str "Alice Brown", str "HR", 60000, str "2023-03-10"⟩]

namespace MainPy

/-- main.py lines 42-65: `CREATE TABLE IF NOT EXISTS` (leaves any existing rows
untouched), then `SELECT COUNT(*) FROM employees`; only when the count is zero
are the four sample rows inserted; finally commit. -/
def init_sample_db (rows : DbRows) : DbRows :=
  if rows.length = 0 then rows ++ sample_data else rows

end MainPy

namespace NewMainPy

/-- NewMain.py lines 52-77: `CREATE TABLE IF NOT EXISTS`, then — whenever
`include_sample_data` is set — `DELETE FROM employees` (clearing every existing
row) followed by `executemany INSERT` of the four sample rows; finally commit. -/
def init_sample_db (include_sample_data : Bool) (rows : DbRows) : DbRows :=
  if include_sample_data then
    let cleared : DbRows := []
    cleared ++ sample_data
  else rows

end NewMainPy

namespace NewMain2Py

/-- NewMain2.py lines 53-77: textually identical to `NewMainPy.init_sample_db`. -/
def init_sample_db (include_sample_data : Bool) (rows : DbRows) : DbRows :=
  if include_sample_data then
    let cleared : DbRows := []
    cleared ++ sample_data
  else rows

end NewMain2Py

/-- The sqlite connection: the rows last committed and the rows as seen by the
open transaction.  Modelled from the spec: the transaction semantics of sqlite
(mutations become durable on `commit`, `rollback` restores the committed state,
and a statement that raises has no effect of its own) stand in for the sqlite3
driver, which is not part of the repository. -/
structure Conn where
  committed : DbRows
  current : DbRows
deriving DecidableEq

/-- The connection-level operations a turn performs, recorded as a trace. -/
inductive DbEvent where
  | execute (sql : Str)
  | commit
  | rollback
deriving DecidableEq

/-- What `cursor.execute(...)` yields on success: the updated rows, the tuples
`fetchall` would return (rendered as text), and `cursor.description`
(column names) when present. -/
structure QueryOut where
  newRows : DbRows
  results : List (List Str)
  description : Option (List Str)
deriving DecidableEq

/-- Modelled from the spec: the meaning of a SQL statement is supplied by the
external sqlite engine; it is an arbitrary function from the statement text and
the current rows to either a `QueryOut` or a database error message. -/
abbrev SqlSem := Str → DbRows → Except Str QueryOut

/-- Embedding of `cursor.execute(sql)` on a connection: on success the view of
the rows advances (nothing is committed); a failing statement leaves the
connection exactly as it was. -/
def Conn.exec (c : Conn) (sem : SqlSem) (sql : Str) : Except Str (Conn × QueryOut) :=
  match sem sql c.current with
  | Except.ok out => Except.ok (⟨c.committed, out.newRows⟩, out)
  | Except.error e => Except.error e

/-- Embedding of `conn.commit()`. -/
def Conn.commitTx (c : Conn) : Conn := ⟨c.current, c.current⟩

/-- Embedding of `conn.rollback()`. -/
def Conn.rollbackTx (c : Conn) : Conn := ⟨c.committed, c.committed⟩

/-- One entry of `st.session_state.messages`: a `{"role": ..., "content": ...}`
dictionary. -/
structure Msg where
  role : Str
  content : Str
deriving DecidableEq

/-- The user entry dictionary with content `t`. -/
def userMsg (t : Str) : Msg := ⟨str "user", t⟩

/-- The assistant entry dictionary with content `t`. -/
def assistMsg (t : Str) : Msg := ⟨str "assistant", t⟩

/-- What a turn renders: `st.code` / `st.dataframe` / `st.write` / `st.success`
/ `st.warning` / `st.error` calls, in order. -/
inductive Shown where
  | code (sql : Str)
  | table
  | text (t : Str)
  | success (t : Str)
  | warning (t : Str)
  | error (t : Str)
deriving DecidableEq

/-- Everything one completed user turn produces: the final connection, the chat
log, the trace of connection operations, what was rendered, the full prompt
handed to the LLM (when it was invoked) and the request text interpolated into
that prompt. -/
structure TurnOut where
  conn : Conn
  msgs : List Msg
  events : List DbEvent
  shown : List Shown
  genPromptUsed : Option Str
  genInput : Option Str
deriving DecidableEq

/-! ## Prompt construction -/

/-- main.py lines 81-90: the fixed template text before the `schema` slot. -/
def sql_t1 : Str :=
  str "\nYou are an expert SQL database engineer. Convert this natural language command into a valid SQLite SQL query.\n\nDatabase schema:\n"

/-- main.py: the fixed template text between the `schema` and `input` slots. -/
def sql_t2 : Str := str "\n\nCommand: "

/-- main.py: the fixed template text after the `input` slot. -/
def sql_t3 : Str :=
  str "\n\nProvide only the SQL query without any explanation or additional text. Ensure it\x27s valid SQLite syntax.\n"

/-- main.py lines 79-91 and 163-164: `sql_prompt.format(input=..., schema=...)`,
the `PromptTemplate` with named slots `input` and `schema` filled.  The Python
format substitutes the two values verbatim and does not re-scan them. -/
def sql_prompt_format (schema input : Str) : Str :=
  sql_t1 ++ schema ++ sql_t2 ++ input ++ sql_t3

/-- NewMain2.py lines 107-115: the modification-prompt f-string, first piece. -/
def mod_t1 : Str := str "\n    Given this database schema:\n    "

/-- NewMain2.py: modification-prompt piece between the schema and the quoted
request. -/
def mod_t2 : Str :=
  str "\n    \n    Convert this natural language request into a valid SQLite SQL query:\n    \""

/-- NewMain2.py: modification-prompt piece after the quoted request. -/
def mod_t3 : Str :=
  str "\"\n    \n    Return only the SQL query without any explanation.\n    "

/-- NewMain2.py lines 107-115 assembled (`get_schema_info(conn)` is passed in
as `schema`). -/
def mod_prompt (schema query_text : Str) : Str :=
  mod_t1 ++ schema ++ mod_t2 ++ query_text ++ mod_t3

/-! ## Classification and extraction heuristics -/

/-- NewMain2.py line 140: the fixed danger keyword list. -/
def danger_words : List Str :=
  [str "delete", str "drop", str "truncate", str "update", str "insert"]

/-- NewMain2.py lines 139-141: `any(word in query.lower() for word in danger_words)`. -/
def is_destructive_query (query : Str) : Bool :=
  danger_words.any (fun word => hasSub (pyLower query) word)

/-- main.py line 171: `sql_query.strip().lower().startswith(("select", "pragma", "explain"))`. -/
def read_keywords : List Str := [str "select", str "pragma", str "explain"]

/-- The branch condition of main.py line 171. -/
def startsReadOnly (sql_query : Str) : Bool :=
  read_keywords.any (fun kw => beginsWith kw (pyLower (pyStrip sql_query)))

/-- main.py lines 192-209: determine the table affected by a non-read
statement.  `table_name` defaults to `"employees"`; for the first keyword of
`into `/`update `/`from ` found in the lowercased statement, Python takes
`parts = lowered.split(kw)` and then `parts[1].split()[0].strip()` —
`parts[1]` is the segment strictly between the first occurrence of the keyword
and its next occurrence (or the end), and the `[0]` raises `IndexError`
(embedded as `none`) when that segment is all whitespace.  The `len(parts) > 1`
guard always holds once `kw in lowered` does. -/
def affectedTable (sql_query : Str) : Option Str :=
  let lowered := pyLower sql_query
  if hasSub lowered (str "into ") then
    (firstWsToken (upToFirst (str "into ") ((afterFirst (str "into ") lowered).getD []))).map pyStrip
  else if hasSub lowered (str "update ") then
    (firstWsToken (upToFirst (str "update ") ((afterFirst (str "update ") lowered).getD []))).map pyStrip
  else if hasSub lowered (str "from ") then
    (firstWsToken (upToFirst (str "from ") ((afterFirst (str "from ") lowered).getD []))).map pyStrip
  else some (str "employees")

/-! ## Fixed message texts -/

/-- main.py line 219: the assistant entry recorded after a successful execution. -/
def successMessage (sql_query : Str) : Str :=
  str "Generated SQL: ```sql\n" ++ sql_query ++ str "\n```\n\nQuery executed successfully."

/-- NewMain2.py line 194: the fixed refusal returned when the confirmation
token is missing. -/
def refusal_message : Str :=
  str "Please confirm destructive operation by starting query with \x27YES\x27"

/-- NewMain2.py line 192: the advisory banner shown whenever the gate fires. -/
def destructive_warning : Str :=
  str "Destructive operation detected. Please confirm with \x27YES\x27 prefix."

/-- main.py line 143: the static schema description substituted when
introspection fails. -/
def fallback_schema : Str :=
  str "Table: employees\n- id (INTEGER)\n- name (TEXT)\n- department (TEXT)\n- salary (REAL)\n- hire_date (TEXT)"

/-- main.py line 216 combined with the Python `IndexError` text. -/
def could_not_show_index : Str :=
  str "Could not show updated table: list index out of range"

/-! ## The direct-generation turn (main.py lines 154-230)

The handler appends the user entry, builds the prompt, invokes the LLM
(`gen`, which may raise), strips the reply, and executes it; the chat log of a
completed turn is always the old log plus exactly one user and one assistant
entry, so the final log is written in that shape directly. -/

/-- main.py lines 174-183: rendering of a read-only result set. -/
def readDisplay (q : QueryOut) : List Shown :=
  match q.description with
  | some _ =>
    if q.results.isEmpty then [Shown.text (str "No results found.")]
    else [Shown.text (str "Results:"), Shown.table]
  | none => [Shown.text (str "Query executed (no results to display).")]

/-- One user turn of main.py (lines 154-230). -/
def mainTurn (sem : SqlSem) (gen : Str → Except Str Str) (schema_info : Str)
    (conn : Conn) (msgs : List Msg) (prompt : Str) : TurnOut :=
  match gen (sql_prompt_format schema_info prompt) with
  | Except.error e =>
    ⟨conn, msgs ++ [userMsg prompt, assistMsg (str "Error executing query: Error: " ++ e)],
     [], [Shown.error (str "Error: " ++ e)], some (sql_prompt_format schema_info prompt), some prompt⟩
  | Except.ok content =>
    if startsReadOnly (pyStrip content) then
      match Conn.exec conn sem (pyStrip content) with
      | Except.ok (conn1, q) =>
        ⟨conn1, msgs ++ [userMsg prompt, assistMsg (successMessage (pyStrip content))],
         [DbEvent.execute (pyStrip content)],
         Shown.code (pyStrip content) :: readDisplay q, some (sql_prompt_format schema_info prompt), some prompt⟩
      | Except.error e =>
        ⟨conn, msgs ++ [userMsg prompt, assistMsg (str "Error executing query: Error: " ++ e)],
         [DbEvent.execute (pyStrip content)],
         [Shown.code (pyStrip content), Shown.error (str "Error: " ++ e)], some (sql_prompt_format schema_info prompt), some prompt⟩
    else
      match Conn.exec conn sem (pyStrip content) with
      | Except.error e =>
        ⟨conn, msgs ++ [userMsg prompt, assistMsg (str "Error executing query: Error: " ++ e)],
         [DbEvent.execute (pyStrip content)],
         [Shown.code (pyStrip content), Shown.error (str "Error: " ++ e)], some (sql_prompt_format schema_info prompt), some prompt⟩
      | Except.ok (conn1, _) =>
        match affectedTable (pyStrip content) with
        | none =>
          ⟨Conn.commitTx conn1, msgs ++ [userMsg prompt, assistMsg (successMessage (pyStrip content))],
           [DbEvent.execute (pyStrip content), DbEvent.commit],
           [Shown.code (pyStrip content), Shown.success (str "Command executed successfully!"),
            Shown.text (str "Current table state:"), Shown.warning could_not_show_index],
           some (sql_prompt_format schema_info prompt), some prompt⟩
        | some t =>
          match Conn.exec (Conn.commitTx conn1) sem (str "SELECT * FROM " ++ t) with
          | Except.ok (conn3, _) =>
            ⟨conn3, msgs ++ [userMsg prompt, assistMsg (successMessage (pyStrip content))],
             [DbEvent.execute (pyStrip content), DbEvent.commit, DbEvent.execute (str "SELECT * FROM " ++ t)],
             [Shown.code (pyStrip content), Shown.success (str "Command executed successfully!"),
              Shown.text (str "Current table state:"), Shown.table],
             some (sql_prompt_format schema_info prompt), some prompt⟩
          | Except.error e =>
            ⟨Conn.commitTx conn1, msgs ++ [userMsg prompt, assistMsg (successMessage (pyStrip content))],
             [DbEvent.execute (pyStrip content), DbEvent.commit, DbEvent.execute (str "SELECT * FROM " ++ t)],
             [Shown.code (pyStrip content), Shown.success (str "Command executed successfully!"),
              Shown.text (str "Current table state:"),
              Shown.warning (str "Could not show updated table: " ++ e)],
             some (sql_prompt_format schema_info prompt), some prompt⟩

/-- main.py lines 139-143: the schema text for the turn is the introspection
result, or the fixed fallback when the catalog query raised; the turn then runs
either way. -/
def mainApp (schemaResult : Except Str Str) (sem : SqlSem) (gen : Str → Except Str Str)
    (conn : Conn) (msgs : List Msg) (prompt : Str) : TurnOut :=
  let schema_info := match schemaResult with
    | Except.ok s => s
    | Except.error _ => fallback_schema
  mainTurn sem gen schema_info conn msgs prompt

/-! ## The confirmation-flow turn (NewMain2.py lines 106-127 and 185-209) -/

/-- NewMain2.py lines 106-127: build the modification prompt, invoke the LLM
(`gen`, which may raise), strip the reply, execute it; commit on success and
return a success string, roll back and re-raise a wrapped error on failure.
Returns the result, the connection and the trace. -/
def execute_modification_query (sem : SqlSem) (gen : Str → Except Str Str)
    (conn : Conn) (schema_info query_text : Str) :
    Except Str Str × Conn × List DbEvent :=
  match gen (mod_prompt schema_info query_text) with
  | Except.error e => (Except.error e, conn, [])
  | Except.ok content =>
    match Conn.exec conn sem (pyStrip content) with
    | Except.ok (conn1, _) =>
      (Except.ok (str "Successfully executed: " ++ pyStrip content), Conn.commitTx conn1,
       [DbEvent.execute (pyStrip content), DbEvent.commit])
    | Except.error e =>
      (Except.error (str "SQL Execution Error: " ++ e), Conn.rollbackTx conn,
       [DbEvent.execute (pyStrip content), DbEvent.rollback])

/-- Modelled from the spec: the LangChain SQL agent is an opaque external
orchestrator that, for a user query, chooses some sequence of SQL statements to
run through its toolkit against the shared connection and produces a textual
answer.  Its choices are an arbitrary parameter `Str → List Str × Str`; this
runs the chosen statements in order (the agent absorbs statement errors
itself). -/
def runAgent (sem : SqlSem) (conn : Conn) : List Str → Conn × List DbEvent
  | [] => (conn, [])
  | s :: rest =>
    let conn1 := match Conn.exec conn sem s with
      | Except.ok (c, _) => c
      | Except.error _ => conn
    let (conn2, evs) := runAgent sem conn1 rest
    (conn2, DbEvent.execute s :: evs)

/-- One user turn of NewMain2.py (lines 185-209): the gate classifies the *raw
user input*; a destructive-looking input without the `YES` prefix is refused
without invoking anything; with the prefix, `user_query[4:]` is handed to
`execute_modification_query`; a non-destructive-looking input goes to the
agent. -/
def newMain2Turn (sem : SqlSem) (gen : Str → Except Str Str)
    (agent : Str → List Str × Str) (schema_info : Str)
    (conn : Conn) (msgs : List Msg) (user_query : Str) : TurnOut :=
  if is_destructive_query user_query then
    if beginsWith (str "YES") (pyUpper user_query) then
      match execute_modification_query sem gen conn schema_info (user_query.drop 4) with
      | (Except.ok response, conn1, evs) =>
        ⟨conn1, msgs ++ [userMsg user_query, assistMsg response], evs,
         [Shown.warning destructive_warning, Shown.text response],
         some (mod_prompt schema_info (user_query.drop 4)), some (user_query.drop 4)⟩
      | (Except.error e, conn1, evs) =>
        ⟨conn1, msgs ++ [userMsg user_query, assistMsg (str "Error: " ++ e)], evs,
         [Shown.warning destructive_warning, Shown.error (str "Error: " ++ e)],
         some (mod_prompt schema_info (user_query.drop 4)), some (user_query.drop 4)⟩
    else
      ⟨conn, msgs ++ [userMsg user_query, assistMsg refusal_message], [],
       [Shown.warning destructive_warning, Shown.text refusal_message], none, none⟩
  else
    ⟨(runAgent sem conn (agent user_query).1).1,
     msgs ++ [userMsg user_query, assistMsg (agent user_query).2],
     (runAgent sem conn (agent user_query).1).2,
     [Shown.text (agent user_query).2], none, none⟩

/-! ## Concrete instantiations used by witnesses and counterexamples -/

/-- A statement semantics for which every statement succeeds without touching
the rows and returns no result set. -/
def semOk : SqlSem := fun _ rows => Except.ok ⟨rows, [], none⟩

/-- A statement semantics under which exactly the statement
`DELETE FROM employees WHERE id = 1` removes the row with id 1 and everything
else is a no-op. -/
def semDel : SqlSem := fun sql rows =>
  if sql = str "DELETE FROM employees WHERE id = 1" then
    Except.ok ⟨rows.filter (fun r => r.id != 1), [], none⟩
  else Except.ok ⟨rows, [], none⟩

/-- A statement semantics under which every statement raises. -/
def semFail : SqlSem := fun _ _ => Except.error (str "incomplete input")

/-- A connection whose committed and current rows are the four sample rows. -/
def connSample : Conn := ⟨sample_data, sample_data⟩

/-- A generator that always answers with the given text. -/
def genConst (t : String) : Str → Except Str Str := fun _ => Except.ok (str t)

/-- An agent that, like the LangChain SQL agent asked to remove a row, runs one
DELETE statement through its toolkit and reports what it did. -/
def agentDel : Str → List Str × Str :=
  fun _ => ([str "DELETE FROM employees WHERE id = 1"], str "I removed employee 1.")

/-! ## Definitions taken from the wording of the claims (for the refinement-style
comparisons of C4 and C5) -/

/-- The rule of claim C5, as worded: the table is named by the first
whitespace-delimited token of the lowercased statement text *following* the
first `into ` if present, otherwise following `update `, otherwise `from `,
defaulting to `employees`; `none` when the keyword is present but no token
follows. -/
def claimed_table (sql_query : Str) : Option Str :=
  let lowered := pyLower sql_query
  if hasSub lowered (str "into ") then
    firstWsToken ((afterFirst (str "into ") lowered).getD [])
  else if hasSub lowered (str "update ") then
    firstWsToken ((afterFirst (str "update ") lowered).getD [])
  else if hasSub lowered (str "from ") then
    firstWsToken ((afterFirst (str "from ") lowered).getD [])
  else some (str "employees")

/-- The segment of the lowercased text strictly between the first occurrence of
`kw` and its next occurrence (or the end); `none` when `kw` does not occur. -/
def segmentAfterKw (kw lowered : Str) : Option Str :=
  (afterFirst kw lowered).map (upToFirst kw)

/-- Claim C5 as amended: the token is drawn from the segment between the first
occurrence of the keyword and its next occurrence (or the end of the text),
with the same `into `/`update `/`from ` priority and the same `employees`
default; when that segment holds no token the extraction fails (`none`). -/
def spec_affected_table (sql_query : Str) : Option Str :=
  let lowered := pyLower sql_query
  match segmentAfterKw (str "into ") lowered with
  | some seg => (firstWsToken seg).map pyStrip
  | none =>
    match segmentAfterKw (str "update ") lowered with
    | some seg => (firstWsToken seg).map pyStrip
    | none =>
      match segmentAfterKw (str "from ") lowered with
      | some seg => (firstWsToken seg).map pyStrip
      | none => some (str "employees")

/-- The rule of claim C4, as worded: the original user message with exactly the
leading case-insensitive token `YES` (three characters) removed. -/
def removeYesToken (q : Str) : Str :=
  if beginsWith (str "YES") (pyUpper q) then q.drop 3 else q

/-! ## Whitespace lemmas bridging the claimed "after trimming leading
whitespace" wording to the `strip()` call of the code (which also trims trailing
whitespace) -/

/-- ASCII lowercasing fixes the whitespace characters. -/
theorem toLower_ws {c : Char} (h : c.isWhitespace = true) : Char.toLower c = c := by
  simp only [Char.isWhitespace, Bool.or_eq_true, decide_eq_true_eq] at h
  rcases h with ((rfl | rfl) | rfl) | rfl <;> decide

/-- Lowercasing an all-whitespace string yields an all-whitespace string. -/
theorem pyLower_ws_of_ws {t : Str} (ht : ∀ c ∈ t, c.isWhitespace = true) :
    ∀ c ∈ pyLower t, c.isWhitespace = true := by
  intro c hc
  rcases List.mem_map.mp hc with ⟨d, hd, rfl⟩
  rw [toLower_ws (ht d hd)]
  exact ht d hd

/-- A keyword made of non-whitespace characters is a leading segment of
`r ++ t` for all-whitespace `t` exactly when it is one of `r`. -/
theorem beginsWith_append_ws : ∀ (p r t : Str),
    (∀ c ∈ p, c.isWhitespace = false) → (∀ c ∈ t, c.isWhitespace = true) →
    beginsWith p (r ++ t) = beginsWith p r
  | [], _, _, _, _ => rfl
  | a :: ps, [], t, hp, ht => by
    cases t with
    | nil => rfl
    | cons c cs =>
      have hne : (a == c) = false := by
        refine beq_eq_false_iff_ne.mpr fun h => ?_
        have ha := hp a (List.mem_cons_self a ps)
        have hc := ht c (List.mem_cons_self c cs)
        rw [h, hc] at ha
        exact Bool.noConfusion ha
      show beginsWith (a :: ps) (c :: cs) = false
      simp [beginsWith, hne]
  | a :: ps, b :: rs, t, hp, ht => by
    show beginsWith (a :: ps) (b :: (rs ++ t)) = beginsWith (a :: ps) (b :: rs)
    simp only [beginsWith]
    rw [beginsWith_append_ws ps rs t (fun c hc => hp c (List.mem_cons_of_mem a hc)) ht]

/-- Every string splits as its trailing-trim plus an all-whitespace tail. -/
theorem rtrim_append (y : Str) :
    ∃ t, y = rtrim y ++ t ∧ ∀ c ∈ t, c.isWhitespace = true := by
  refine ⟨(y.reverse.takeWhile Char.isWhitespace).reverse, ?_, ?_⟩
  · have h : y.reverse.takeWhile Char.isWhitespace ++ y.reverse.dropWhile Char.isWhitespace
        = y.reverse := List.takeWhile_append_dropWhile Char.isWhitespace y.reverse
    calc y = y.reverse.reverse := (List.reverse_reverse y).symm
      _ = (y.reverse.takeWhile Char.isWhitespace
            ++ y.reverse.dropWhile Char.isWhitespace).reverse := by rw [h]
      _ = (y.reverse.dropWhile Char.isWhitespace).reverse
            ++ (y.reverse.takeWhile Char.isWhitespace).reverse := by
          rw [List.reverse_append]
      _ = rtrim y ++ (y.reverse.takeWhile Char.isWhitespace).reverse := rfl
  · intro c hc
    exact List.mem_takeWhile_imp (List.mem_reverse.mp hc)

/-- Trailing-whitespace trimming does not change whether the lowercased text
begins with a non-whitespace keyword. -/
theorem beginsWith_pyLower_rtrim (kw y : Str)
    (hp : ∀ c ∈ kw, c.isWhitespace = false) :
    beginsWith kw (pyLower (rtrim y)) = beginsWith kw (pyLower y) := by
  obtain ⟨t, hy, ht⟩ := rtrim_append y
  have hws := pyLower_ws_of_ws ht
  simp only [pyLower] at hws ⊢
  conv_rhs => rw [hy]
  rw [List.map_append,
      beginsWith_append_ws kw (List.map Char.toLower (rtrim y)) (List.map Char.toLower t) hp hws]

/-- The branch condition of main.py line 171 coincides with the claim C3 wording
"after trimming leading whitespace, begins case-insensitively with
`select`, `pragma`, or `explain`". -/
theorem startsReadOnly_eq_leading (sql_query : Str) :
    startsReadOnly sql_query =
      (beginsWith (str "select") (pyLower (ltrim sql_query)) ||
       beginsWith (str "pragma") (pyLower (ltrim sql_query)) ||
       beginsWith (str "explain") (pyLower (ltrim sql_query))) := by
  have h1 := beginsWith_pyLower_rtrim (str "select") (ltrim sql_query) (by decide)
  have h2 := beginsWith_pyLower_rtrim (str "pragma") (ltrim sql_query) (by decide)
  have h3 := beginsWith_pyLower_rtrim (str "explain") (ltrim sql_query) (by decide)
  simp only [startsReadOnly, read_keywords, List.any_cons, List.any_nil, Bool.or_false,
    pyStrip]
  rw [h1, h2, h3, Bool.or_assoc]

/-! ## Shape of a completed turn -/

/-- Every branch of the main.py turn appends exactly one user and one
assistant entry, and always hands the LLM the formatted prompt. -/
theorem mainTurn_shape (sem : SqlSem) (gen : Str → Except Str Str) (schema_info : Str)
    (conn : Conn) (msgs : List Msg) (prompt : Str) :
    (∃ a, (mainTurn sem gen schema_info conn msgs prompt).msgs
        = msgs ++ [userMsg prompt, assistMsg a]) ∧
    (mainTurn sem gen schema_info conn msgs prompt).genPromptUsed
      = some (sql_prompt_format schema_info prompt) := by
  unfold mainTurn
  cases hg : gen (sql_prompt_format schema_info prompt) with
  | error e => exact ⟨⟨_, rfl⟩, rfl⟩
  | ok content =>
    dsimp only
    repeat' split
    all_goals exact ⟨⟨_, rfl⟩, rfl⟩

/-- Every branch of the NewMain2.py turn appends exactly one user and one
assistant entry. -/
theorem newMain2Turn_msgs (sem : SqlSem) (gen : Str → Except Str Str)
    (agent : Str → List Str × Str) (schema_info : Str)
    (conn : Conn) (msgs : List Msg) (user_query : Str) :
    ∃ a, (newMain2Turn sem gen agent schema_info conn msgs user_query).msgs
        = msgs ++ [userMsg user_query, assistMsg a] := by
  unfold newMain2Turn
  repeat' split
  all_goals exact ⟨_, rfl⟩

/-! ## Claim C1 -/

/-- C1 (counterexample): the safety gate classifies the *raw user input*, not
the generated statement.  For the user message `remove employee 1` — which
contains no danger keyword and does not begin with `YES` — NewMain2.py takes
the agent path: a statement containing `delete` is generated and executed, the
rows of the connection change, and the assistant entry is the agent answer rather
than the fixed refusal.  So a generated statement with a mutating keyword can
run although the originating message did not begin with `YES`. -/
theorem c1_gate_counterexample :
    is_destructive_query (str "remove employee 1") = false ∧
    beginsWith (str "YES") (pyUpper (str "remove employee 1")) = false ∧
    hasSub (pyLower (str "DELETE FROM employees WHERE id = 1")) (str "delete") = true ∧
    (newMain2Turn semDel (genConst "x") agentDel (str "S") connSample []
        (str "remove employee 1")).events
      = [DbEvent.execute (str "DELETE FROM employees WHERE id = 1")] ∧
    (newMain2Turn semDel (genConst "x") agentDel (str "S") connSample []
        (str "remove employee 1")).msgs
      = [userMsg (str "remove employee 1"), assistMsg (str "I removed employee 1.")] ∧
    (str "I removed employee 1.") ≠ refusal_message ∧
    (newMain2Turn semDel (genConst "x") agentDel (str "S") connSample []
        (str "remove employee 1")).conn.current ≠ sample_data := by
  decide

/-- C1 (amended): for every *user message* that contains one of the danger
keywords case-insensitively, if the message does not begin with the
case-insensitive token `YES` then nothing is executed on the connection, the
LLM is not invoked for SQL generation, the connection is untouched, and the
assistant turn appended is exactly the fixed refusal message. -/
theorem c1_gate_amended (sem : SqlSem) (gen : Str → Except Str Str)
    (agent : Str → List Str × Str) (schema_info : Str) (conn : Conn)
    (msgs : List Msg) (user_query : Str)
    (h1 : is_destructive_query user_query = true)
    (h2 : beginsWith (str "YES") (pyUpper user_query) = false) :
    (newMain2Turn sem gen agent schema_info conn msgs user_query).events = [] ∧
    (newMain2Turn sem gen agent schema_info conn msgs user_query).genInput = none ∧
    (newMain2Turn sem gen agent schema_info conn msgs user_query).conn = conn ∧
    (newMain2Turn sem gen agent schema_info conn msgs user_query).msgs
      = msgs ++ [userMsg user_query, assistMsg refusal_message] := by
  unfold newMain2Turn
  rw [h1, h2]
  simp

/-- C1 (witness): the amended gate property at the input
`delete employee with id 1`. -/
theorem c1_gate_witness :
    is_destructive_query (str "delete employee with id 1") = true ∧
    beginsWith (str "YES") (pyUpper (str "delete employee with id 1")) = false ∧
    (newMain2Turn semOk (genConst "x") agentDel (str "S") connSample []
        (str "delete employee with id 1")).events = [] ∧
    (newMain2Turn semOk (genConst "x") agentDel (str "S") connSample []
        (str "delete employee with id 1")).genInput = none ∧
    (newMain2Turn semOk (genConst "x") agentDel (str "S") connSample []
        (str "delete employee with id 1")).conn = connSample ∧
    (newMain2Turn semOk (genConst "x") agentDel (str "S") connSample []
        (str "delete employee with id 1")).msgs
      = [] ++ [userMsg (str "delete employee with id 1"), assistMsg refusal_message] :=
  ⟨by decide, by decide,
   (c1_gate_amended semOk (genConst "x") agentDel (str "S") connSample []
     (str "delete employee with id 1") (by decide) (by decide)).1,
   (c1_gate_amended semOk (genConst "x") agentDel (str "S") connSample []
     (str "delete employee with id 1") (by decide) (by decide)).2.1,
   (c1_gate_amended semOk (genConst "x") agentDel (str "S") connSample []
     (str "delete employee with id 1") (by decide) (by decide)).2.2.1,
   (c1_gate_amended semOk (genConst "x") agentDel (str "S") connSample []
     (str "delete employee with id 1") (by decide) (by decide)).2.2.2⟩

/-! ## Claim C2 -/

/-- C2 (counterexample): in the direct-generation variant (main.py) an
execution exception does *not* trigger a rollback — the handler only catches
and displays.  Concretely: the generated statement `DELETE FROM` raises
`incomplete input`; the connection trace of the turn holds the execute attempt and
no rollback, the error is surfaced, and the turn ends. -/
theorem c2_rollback_counterexample :
    semFail (str "DELETE FROM") connSample.current
      = Except.error (str "incomplete input") ∧
    (mainTurn semFail (genConst "DELETE FROM") (str "S") connSample []
        (str "drop it")).events = [DbEvent.execute (str "DELETE FROM")] ∧
    DbEvent.rollback ∉ (mainTurn semFail (genConst "DELETE FROM") (str "S") connSample []
        (str "drop it")).events ∧
    (mainTurn semFail (genConst "DELETE FROM") (str "S") connSample []
        (str "drop it")).shown
      = [Shown.code (str "DELETE FROM"), Shown.error (str "Error: incomplete input")] ∧
    (mainTurn semFail (genConst "DELETE FROM") (str "S") connSample []
        (str "drop it")).conn = connSample := by
  exact ⟨rfl, by decide, by decide, by decide, by decide⟩

/-- C2 (amended): when executing a generated statement raises, the
confirmation-flow executor (`execute_modification_query`, NewMain2.py) rolls
the transaction back, re-raises with the database message contained verbatim,
and leaves the connection in a clean usable state with the committed rows
unchanged; the direct-generation variant (main.py) performs *no* rollback, but
the failed statement leaves both the current and the committed rows unchanged,
and the error message is surfaced verbatim in the assistant entry, so the
employees rows are stable across the failed turn in both variants. -/
theorem c2_rollback_amended :
    (∀ (sem : SqlSem) (gen : Str → Except Str Str) (conn : Conn)
        (schema_info query_text content e : Str),
      gen (mod_prompt schema_info query_text) = Except.ok content →
      sem (pyStrip content) conn.current = Except.error e →
      execute_modification_query sem gen conn schema_info query_text =
        (Except.error (str "SQL Execution Error: " ++ e), Conn.rollbackTx conn,
         [DbEvent.execute (pyStrip content), DbEvent.rollback]) ∧
      (Conn.rollbackTx conn).committed = conn.committed ∧
      (Conn.rollbackTx conn).current = conn.committed) ∧
    (∀ (sem : SqlSem) (gen : Str → Except Str Str) (schema_info : Str) (conn : Conn)
        (msgs : List Msg) (prompt content e : Str),
      gen (sql_prompt_format schema_info prompt) = Except.ok content →
      sem (pyStrip content) conn.current = Except.error e →
      (mainTurn sem gen schema_info conn msgs prompt).conn = conn ∧
      DbEvent.rollback ∉ (mainTurn sem gen schema_info conn msgs prompt).events ∧
      (mainTurn sem gen schema_info conn msgs prompt).msgs
        = msgs ++ [userMsg prompt,
            assistMsg (str "Error executing query: Error: " ++ e)]) := by
  constructor
  · intro sem gen conn schema_info query_text content e hg hs
    refine ⟨?_, rfl, rfl⟩
    unfold execute_modification_query
    rw [hg]
    dsimp only
    unfold Conn.exec
    rw [hs]
  · intro sem gen schema_info conn msgs prompt content e hg hs
    have hE : Conn.exec conn sem (pyStrip content) = Except.error e := by
      unfold Conn.exec
      rw [hs]
    unfold mainTurn
    rw [hg]
    dsimp only
    split
    · rw [hE]
      exact ⟨rfl, by simp, rfl⟩
    · rw [hE]
      exact ⟨rfl, by simp, rfl⟩

/-- C2 (witness): the amended error-handling property at a concrete failing
statement for both variants. -/
theorem c2_rollback_witness :
    ((genConst "DELETE FROM") (mod_prompt (str "S") (str "q"))
        = Except.ok (str "DELETE FROM") ∧
      semFail (pyStrip (str "DELETE FROM")) connSample.current
        = Except.error (str "incomplete input") ∧
      execute_modification_query semFail (genConst "DELETE FROM") connSample (str "S") (str "q") =
        (Except.error (str "SQL Execution Error: " ++ str "incomplete input"),
         Conn.rollbackTx connSample,
         [DbEvent.execute (pyStrip (str "DELETE FROM")), DbEvent.rollback])) ∧
    ((mainTurn semFail (genConst "DELETE FROM") (str "S") connSample [] (str "q")).conn
        = connSample ∧
      DbEvent.rollback ∉ (mainTurn semFail (genConst "DELETE FROM") (str "S") connSample []
        (str "q")).events) :=
  ⟨⟨rfl, rfl,
    ((c2_rollback_amended.1) semFail (genConst "DELETE FROM") connSample (str "S") (str "q")
      (str "DELETE FROM") (str "incomplete input") rfl rfl).1⟩,
   ⟨((c2_rollback_amended.2) semFail (genConst "DELETE FROM") (str "S") connSample []
      (str "q") (str "DELETE FROM") (str "incomplete input") rfl rfl).1,
    ((c2_rollback_amended.2) semFail (genConst "DELETE FROM") (str "S") connSample []
      (str "q") (str "DELETE FROM") (str "incomplete input") rfl rfl).2.1⟩⟩

/-! ## Claim C3 -/

/-- C3 (confirmed): for every generated statement that, after trimming leading
whitespace, begins case-insensitively with `select`, `pragma` or `explain`, the
main.py executor never calls commit on the connection, and the committed rows
are unchanged by the turn. -/
theorem c3_readonly_no_commit (sem : SqlSem) (gen : Str → Except Str Str)
    (schema_info : Str) (conn : Conn) (msgs : List Msg) (prompt content : Str)
    (hg : gen (sql_prompt_format schema_info prompt) = Except.ok content)
    (hro : beginsWith (str "select") (pyLower (ltrim (pyStrip content))) = true ∨
           beginsWith (str "pragma") (pyLower (ltrim (pyStrip content))) = true ∨
           beginsWith (str "explain") (pyLower (ltrim (pyStrip content))) = true) :
    DbEvent.commit ∉ (mainTurn sem gen schema_info conn msgs prompt).events ∧
    (mainTurn sem gen schema_info conn msgs prompt).conn.committed
      = conn.committed := by
  have hcode : startsReadOnly (pyStrip content) = true := by
    rw [startsReadOnly_eq_leading]
    rcases hro with h | h | h <;> simp [h]
  unfold mainTurn
  rw [hg]
  dsimp only
  rw [if_pos hcode]
  cases hsem : sem (pyStrip content) conn.current with
  | ok out =>
    unfold Conn.exec
    rw [hsem]
    exact ⟨by simp, rfl⟩
  | error e =>
    unfold Conn.exec
    rw [hsem]
    exact ⟨by simp, rfl⟩

/-- C3 (witness): the read-only guarantee at the concrete generated statement
`  SELECT * FROM employees `. -/
theorem c3_readonly_no_commit_witness :
    (genConst "  SELECT * FROM employees ") (sql_prompt_format (str "S") (str "show all"))
      = Except.ok (str "  SELECT * FROM employees ") ∧
    beginsWith (str "select")
      (pyLower (ltrim (pyStrip (str "  SELECT * FROM employees ")))) = true ∧
    DbEvent.commit ∉ (mainTurn semOk (genConst "  SELECT * FROM employees ") (str "S")
        connSample [] (str "show all")).events ∧
    (mainTurn semOk (genConst "  SELECT * FROM employees ") (str "S")
        connSample [] (str "show all")).conn.committed = connSample.committed :=
  ⟨rfl, by decide,
   (c3_readonly_no_commit semOk (genConst "  SELECT * FROM employees ") (str "S")
     connSample [] (str "show all") (str "  SELECT * FROM employees ") rfl
     (Or.inl (by decide))).1,
   (c3_readonly_no_commit semOk (genConst "  SELECT * FROM employees ") (str "S")
     connSample [] (str "show all") (str "  SELECT * FROM employees ") rfl
     (Or.inl (by decide))).2⟩

/-! ## Claim C4 -/

/-- C4 (counterexample): when the gate fires and the message begins with the
confirmation token, NewMain2.py hands the LLM `user_query[4:]` — the first
*four* characters removed — not the message with exactly the leading `YES`
removed.  At the input `YESX delete a` (destructive-looking, begins with
`YES`), the text used for generation is ` delete a`, while removing exactly
the `YES` token would give `X delete a`. -/
theorem c4_yes_strip_counterexample :
    is_destructive_query (str "YESX delete a") = true ∧
    beginsWith (str "YES") (pyUpper (str "YESX delete a")) = true ∧
    (newMain2Turn semOk (genConst "DELETE FROM t") agentDel (str "S") connSample []
        (str "YESX delete a")).genInput = some (str " delete a") ∧
    removeYesToken (str "YESX delete a") = str "X delete a" ∧
    str " delete a" ≠ str "X delete a" := by
  decide

/-- C4 (amended): when the gate fires and the user message begins with the
case-insensitive token `YES`, the text used to construct the generation prompt
is the original message with its first four characters removed (the `YES`
token plus the character after it — the separating space under the documented
`YES <request>` usage), and execution then proceeds: the statement generated
from that prompt is executed on the connection. -/
theorem c4_yes_strip_amended (sem : SqlSem) (gen : Str → Except Str Str)
    (agent : Str → List Str × Str) (schema_info : Str) (conn : Conn)
    (msgs : List Msg) (user_query content : Str)
    (h1 : is_destructive_query user_query = true)
    (h2 : beginsWith (str "YES") (pyUpper user_query) = true)
    (hg : gen (mod_prompt schema_info (user_query.drop 4)) = Except.ok content) :
    (newMain2Turn sem gen agent schema_info conn msgs user_query).genInput
      = some (user_query.drop 4) ∧
    (newMain2Turn sem gen agent schema_info conn msgs user_query).genPromptUsed
      = some (mod_prompt schema_info (user_query.drop 4)) ∧
    DbEvent.execute (pyStrip content)
      ∈ (newMain2Turn sem gen agent schema_info conn msgs user_query).events := by
  unfold newMain2Turn
  rw [h1, h2, if_pos rfl, if_pos rfl]
  unfold execute_modification_query
  rw [hg]
  dsimp only
  cases hsem : sem (pyStrip content) conn.current with
  | ok out =>
    unfold Conn.exec
    rw [hsem]
    exact ⟨rfl, rfl, by simp⟩
  | error e =>
    unfold Conn.exec
    rw [hsem]
    exact ⟨rfl, rfl, by simp⟩

/-- C4 (witness): the amended stripping property at the documented input
`YES delete employee with id 1`. -/
theorem c4_yes_strip_witness :
    is_destructive_query (str "YES delete employee with id 1") = true ∧
    beginsWith (str "YES") (pyUpper (str "YES delete employee with id 1")) = true ∧
    (genConst "DELETE FROM employees WHERE id = 1")
        (mod_prompt (str "S") ((str "YES delete employee with id 1").drop 4))
      = Except.ok (str "DELETE FROM employees WHERE id = 1") ∧
    (newMain2Turn semDel (genConst "DELETE FROM employees WHERE id = 1") agentDel
        (str "S") connSample [] (str "YES delete employee with id 1")).genInput
      = some (str "delete employee with id 1") ∧
    DbEvent.execute (pyStrip (str "DELETE FROM employees WHERE id = 1"))
      ∈ (newMain2Turn semDel (genConst "DELETE FROM employees WHERE id = 1") agentDel
        (str "S") connSample [] (str "YES delete employee with id 1")).events := by
  refine ⟨by decide, by decide, rfl, ?_, ?_⟩
  · have h := (c4_yes_strip_amended semDel (genConst "DELETE FROM employees WHERE id = 1")
      agentDel (str "S") connSample [] (str "YES delete employee with id 1")
      (str "DELETE FROM employees WHERE id = 1") (by decide) (by decide) rfl).1
    rw [h]
    decide
  · exact (c4_yes_strip_amended semDel (genConst "DELETE FROM employees WHERE id = 1")
      agentDel (str "S") connSample [] (str "YES delete employee with id 1")
      (str "DELETE FROM employees WHERE id = 1") (by decide) (by decide) rfl).2.2

/-! ## Claim C5 -/

/-- C5 (counterexample): the Python `split` cuts the text at *every* occurrence
of the keyword, so the token is drawn only from the segment before the next
occurrence.  For the successfully executing statement
`insert into deinto values (5)` (insert into a table named `deinto`, whose
name itself contains `into `), the code re-queries table `de`, while the
claimed rule — the first whitespace-delimited token following `into ` — names
`deinto`. -/
theorem c5_affected_table_counterexample :
    startsReadOnly (str "insert into deinto values (5)") = false ∧
    claimed_table (str "insert into deinto values (5)") = some (str "deinto") ∧
    affectedTable (str "insert into deinto values (5)") = some (str "de") ∧
    (mainTurn semOk (genConst "insert into deinto values (5)") (str "S") connSample []
        (str "add")).events
      = [DbEvent.execute (str "insert into deinto values (5)"), DbEvent.commit,
         DbEvent.execute (str "SELECT * FROM de")] ∧
    some (str "de") ≠ some (str "deinto") := by
  decide

/-- C5 (amended): the re-queried table is named by the first
whitespace-delimited token of the segment of the lowercased statement text
strictly between the first occurrence of `into ` and its next occurrence (or
the end), otherwise likewise for `update `, otherwise `from `, in that
priority, defaulting to `employees` when none occurs; when that segment holds
no token the post-write display fails instead (no re-query is issued). -/
theorem c5_affected_table_amended :
    (∀ sql_query, affectedTable sql_query = spec_affected_table sql_query) ∧
    (∀ (sem : SqlSem) (gen : Str → Except Str Str) (schema_info : Str) (conn : Conn)
        (msgs : List Msg) (prompt content : Str) (q : QueryOut),
      gen (sql_prompt_format schema_info prompt) = Except.ok content →
      startsReadOnly (pyStrip content) = false →
      sem (pyStrip content) conn.current = Except.ok q →
      (affectedTable (pyStrip content) = none →
        (mainTurn sem gen schema_info conn msgs prompt).events
          = [DbEvent.execute (pyStrip content), DbEvent.commit]) ∧
      (∀ t, affectedTable (pyStrip content) = some t →
        (mainTurn sem gen schema_info conn msgs prompt).events
          = [DbEvent.execute (pyStrip content), DbEvent.commit,
             DbEvent.execute (str "SELECT * FROM " ++ t)])) := by
  constructor
  · intro sql_query
    unfold affectedTable spec_affected_table segmentAfterKw hasSub
    cases h1 : afterFirst (str "into ") (pyLower sql_query) with
    | some r => simp [h1]
    | none =>
      cases h2 : afterFirst (str "update ") (pyLower sql_query) with
      | some r => simp [h1, h2]
      | none =>
        cases h3 : afterFirst (str "from ") (pyLower sql_query) with
        | some r => simp [h1, h2, h3]
        | none => simp [h1, h2, h3]
  · intro sem gen schema_info conn msgs prompt content q hg hnr hok
    unfold mainTurn
    rw [hg]
    dsimp only
    rw [if_neg (by rw [hnr]; exact Bool.false_ne_true)]
    have hE : Conn.exec conn sem (pyStrip content)
        = Except.ok (⟨conn.committed, q.newRows⟩, q) := by
      unfold Conn.exec
      rw [hok]
    rw [hE]
    dsimp only
    refine ⟨fun haff => ?_, fun t haff => ?_⟩
    · rw [haff]
    · rw [haff]
      dsimp only
      cases hE2 : Conn.exec (Conn.commitTx ⟨conn.committed, q.newRows⟩) sem
          (str "SELECT * FROM " ++ t) with
      | ok res => rfl
      | error e2 => rfl

/-- C5 (witness): the amended extraction property at the concrete statement
`insert into deinto values (5)`. -/
theorem c5_affected_table_witness :
    affectedTable (str "insert into deinto values (5)")
      = spec_affected_table (str "insert into deinto values (5)") ∧
    startsReadOnly (str "insert into deinto values (5)") = false ∧
    affectedTable (str "insert into deinto values (5)") = some (str "de") ∧
    (mainTurn semOk (genConst "insert into deinto values (5)") (str "S") connSample []
        (str "add")).events
      = [DbEvent.execute (str "insert into deinto values (5)"), DbEvent.commit,
         DbEvent.execute (str "SELECT * FROM de")] :=
  ⟨c5_affected_table_amended.1 (str "insert into deinto values (5)"),
   by decide, by decide,
   (c5_affected_table_amended.2 semOk (genConst "insert into deinto values (5)")
     (str "S") connSample [] (str "add") (str "insert into deinto values (5)")
     ⟨sample_data, [], none⟩ rfl (by decide) rfl).2 (str "de") (by decide)⟩

/-! ## Claim C6 -/

/-- C6 (confirmed): after a non-read statement executes and commits, a failure
of the affected-table extraction (`IndexError`) or of the follow-up display
query is caught locally: the assistant entry still records successful
execution, a distinct `Could not show updated table:` warning is shown, no
error is rendered, and the commit stands — the failure never escalates to an
overall turn failure. -/
theorem c6_postwrite_warning (sem : SqlSem) (gen : Str → Except Str Str)
    (schema_info : Str) (conn : Conn) (msgs : List Msg) (prompt content : Str)
    (q : QueryOut)
    (hg : gen (sql_prompt_format schema_info prompt) = Except.ok content)
    (hnr : startsReadOnly (pyStrip content) = false)
    (hok : sem (pyStrip content) conn.current = Except.ok q)
    (hfail : affectedTable (pyStrip content) = none ∨
      ∃ t e, affectedTable (pyStrip content) = some t ∧
        sem (str "SELECT * FROM " ++ t) q.newRows = Except.error e) :
    (mainTurn sem gen schema_info conn msgs prompt).msgs
      = msgs ++ [userMsg prompt, assistMsg (successMessage (pyStrip content))] ∧
    (∃ w, Shown.warning (str "Could not show updated table: " ++ w)
        ∈ (mainTurn sem gen schema_info conn msgs prompt).shown) ∧
    (∀ e2, Shown.error e2 ∉ (mainTurn sem gen schema_info conn msgs prompt).shown) ∧
    DbEvent.commit ∈ (mainTurn sem gen schema_info conn msgs prompt).events := by
  unfold mainTurn
  rw [hg]
  dsimp only
  rw [if_neg (by rw [hnr]; exact Bool.false_ne_true)]
  have hE : Conn.exec conn sem (pyStrip content)
      = Except.ok (⟨conn.committed, q.newRows⟩, q) := by
    unfold Conn.exec
    rw [hok]
  rw [hE]
  dsimp only
  rcases hfail with haff | ⟨t, e, haff, hreq⟩
  · rw [haff]
    have hw : could_not_show_index
        = str "Could not show updated table: " ++ str "list index out of range" := by
      decide
    refine ⟨rfl, ⟨str "list index out of range", ?_⟩, ?_, by simp⟩
    · rw [← hw]
      simp
    · intro e2
      simp
  · rw [haff]
    dsimp only
    have hE2 : Conn.exec (Conn.commitTx ⟨conn.committed, q.newRows⟩) sem
        (str "SELECT * FROM " ++ t) = Except.error e := by
      unfold Conn.exec Conn.commitTx
      exact hreq ▸ rfl
    rw [hE2]
    refine ⟨rfl, ⟨e, by simp⟩, ?_, by simp⟩
    intro e2
    simp

/-- C6 (witness): the post-write warning property at the concrete statement
`insert into into x`, whose table extraction raises `IndexError`. -/
theorem c6_postwrite_warning_witness :
    startsReadOnly (str "insert into into x") = false ∧
    affectedTable (str "insert into into x") = none ∧
    (mainTurn semOk (genConst "insert into into x") (str "S") connSample []
        (str "add")).msgs
      = [] ++ [userMsg (str "add"),
          assistMsg (successMessage (pyStrip (str "insert into into x")))] ∧
    (∃ w, Shown.warning (str "Could not show updated table: " ++ w)
        ∈ (mainTurn semOk (genConst "insert into into x") (str "S") connSample []
            (str "add")).shown) ∧
    DbEvent.commit ∈ (mainTurn semOk (genConst "insert into into x") (str "S")
        connSample [] (str "add")).events := by
  have h := c6_postwrite_warning semOk (genConst "insert into into x") (str "S")
    connSample [] (str "add") (str "insert into into x") ⟨sample_data, [], none⟩
    rfl (by decide) rfl (Or.inl (by decide))
  exact ⟨by decide, by decide, h.1, h.2.1, h.2.2.2⟩

/-! ## Claim C7 -/

/-- C7 (confirmed): for all schema descriptions and requests, the Prompt
Builder output contains both verbatim as substrings, and the whole output is
exactly the fixed template wording with the `schema` and `input` slots
filled. -/
theorem c7_prompt_builder (schema input : Str) :
    sql_prompt_format schema input = sql_t1 ++ schema ++ sql_t2 ++ input ++ sql_t3 ∧
    schema <:+: sql_prompt_format schema input ∧
    input <:+: sql_prompt_format schema input := by
  refine ⟨rfl, ⟨sql_t1, sql_t2 ++ input ++ sql_t3, ?_⟩,
    ⟨sql_t1 ++ schema ++ sql_t2, sql_t3, ?_⟩⟩ <;>
    simp [sql_prompt_format, List.append_assoc]

/-! ## Claim C8 -/

/-- C8 (confirmed): the conversation log is append-only and every completed
turn — in the direct-generation variant and in the confirmation-flow variant,
on the success path and on every error path — appends exactly one user entry
followed by exactly one assistant entry. -/
theorem c8_append_turn (sem : SqlSem) (gen : Str → Except Str Str)
    (agent : Str → List Str × Str) (schema_info schema_info2 : Str)
    (conn conn2 : Conn) (msgs msgs2 : List Msg) (input : Str) :
    (∃ a, (mainTurn sem gen schema_info conn msgs input).msgs
        = msgs ++ [userMsg input, assistMsg a]) ∧
    (∃ a, (newMain2Turn sem gen agent schema_info2 conn2 msgs2 input).msgs
        = msgs2 ++ [userMsg input, assistMsg a]) :=
  ⟨(mainTurn_shape sem gen schema_info conn msgs input).1,
   newMain2Turn_msgs sem gen agent schema_info2 conn2 msgs2 input⟩

/-! ## Claim C9 -/

/-- C9 (confirmed): when the schema-introspection catalog query fails, main.py
substitutes the fixed static description of the `employees` table with its
five columns, the generation prompt for the turn is built from that fallback,
and the turn proceeds (one user and one assistant entry are still appended). -/
theorem c9_schema_fallback (e : Str) (sem : SqlSem) (gen : Str → Except Str Str)
    (conn : Conn) (msgs : List Msg) (prompt : Str) :
    (mainApp (Except.error e) sem gen conn msgs prompt).genPromptUsed
      = some (sql_prompt_format fallback_schema prompt) ∧
    (∃ a, (mainApp (Except.error e) sem gen conn msgs prompt).msgs
        = msgs ++ [userMsg prompt, assistMsg a]) ∧
    fallback_schema
      = str "Table: employees\n- id (INTEGER)\n- name (TEXT)\n- department (TEXT)\n- salary (REAL)\n- hire_date (TEXT)" :=
  ⟨(mainTurn_shape sem gen fallback_schema conn msgs prompt).2,
   (mainTurn_shape sem gen fallback_schema conn msgs prompt).1,
   rfl⟩

/-! ## Claim C10 -/

/-- C10 (confirmed): in the two agent-based variants, `init_sample_db` with
sample-data initialisation enabled first clears the `employees` table and then
inserts the four fixed sample rows, so the result is exactly those four rows
whatever was there before; in the direct-generation variant the four rows are
inserted only when the table is empty and pre-existing rows are left
unchanged. -/
theorem c10_init_sample_db (prior : DbRows) (h : prior ≠ []) :
    (∀ rows : DbRows, NewMainPy.init_sample_db true rows = sample_data) ∧
    (∀ rows : DbRows, NewMain2Py.init_sample_db true rows = sample_data) ∧
    MainPy.init_sample_db [] = sample_data ∧
    MainPy.init_sample_db prior = prior ∧
    sample_data.length = 4 := by
  refine ⟨fun rows => rfl, fun rows => rfl, rfl, ?_, rfl⟩
  unfold MainPy.init_sample_db
  rw [if_neg (fun hc => h (List.length_eq_zero.mp hc))]

/-- C10 (witness): the seeding property at a concrete one-row prior table. -/
theorem c10_init_sample_db_witness :
    ([⟨9, str "Zoe Lee", str "Ops", 1, str "2020-01-01"⟩] : DbRows) ≠ [] ∧
    NewMainPy.init_sample_db true [⟨9, str "Zoe Lee", str "Ops", 1, str "2020-01-01"⟩]
      = sample_data ∧
    NewMain2Py.init_sample_db true [⟨9, str "Zoe Lee", str "Ops", 1, str "2020-01-01"⟩]
      = sample_data ∧
    MainPy.init_sample_db [] = sample_data ∧
    MainPy.init_sample_db [⟨9, str "Zoe Lee", str "Ops", 1, str "2020-01-01"⟩]
      = [⟨9, str "Zoe Lee", str "Ops", 1, str "2020-01-01"⟩] := by
  have h := c10_init_sample_db [⟨9, str "Zoe Lee", str "Ops", 1, str "2020-01-01"⟩]
    (by decide)
  exact ⟨by decide, h.1 _, h.2.1 _, h.2.2.1, h.2.2.2.1⟩
